import Mathlib

/-!
Shallow embedding of the radar-visualisation client (`src/main.py`) and
verification of its specification claims.

The program has three behavioural layers:

* `WebSocketWorker.websocket_client` — an async loop that repeatedly connects
  to a fixed address, receives raw messages, parses them with `json.loads`,
  and emits Qt signals (`message_received`, `connection_status`).  We model it
  as a function from a finite trace of environment events (connection attempt
  outcomes and receive events) to the list of emitted actions.
* `RadarWindow.process_message` — the slot receiving parsed JSON objects; it
  guards on a truthy `echoResponses`, reads `scanAngle` and the first echo's
  `time`, computes a position, and calls `RadarWidget.update_radar_data`.
  Any exception is caught and printed.
* `RadarWidget` — a widget holding `angle`, `dot_position`, `dot_visible`.

Python floats are modelled as rationals where the program only does field
arithmetic, and as reals where it calls `math.cos` / `math.sin` /
`math.radians`; the spec itself asks for equality "within floating
tolerance", which the real-number idealisation makes exact.
-/

/-- A parsed JSON value, the result of a successful `json.loads`.
Numbers are modelled as rationals (exact at every value the claims use). -/
inductive Json where
  | null
  | bool (b : Bool)
  | num (q : ℚ)
  | str (s : String)
  | arr (elems : List Json)
  | obj (fields : List (String × Json))
deriving Repr

/-- Python truthiness (`if value:`) for the JSON values `json.loads` can
produce: `None`, `False`, `0`, `""`, `[]`, `{}` are falsy, all else truthy. -/
def truthy : Json → Bool
  | .null => false
  | .bool b => b
  | .num q => decide (q ≠ 0)
  | .str s => !s.isEmpty
  | .arr elems => !elems.isEmpty
  | .obj fields => !fields.isEmpty

/-- Python dict lookup on a parsed JSON object (`d[k]` / `d.get(k)`): the value at
the first matching key, if any (keys of a Python dict are unique). -/
def lookupField (fields : List (String × Json)) (k : String) : Option Json :=
  (fields.find? (fun p => p.1 == k)).map (·.2)

/-- A JSON value used as a number in Python arithmetic: numbers are
themselves; `True`/`False` coerce to `1`/`0`; anything else raises
`TypeError`. -/
def toNum : Json → Option ℚ
  | .num q => some q
  | .bool b => some (if b then 1 else 0)
  | _ => none

/-- Subscripting `value[0]` on the (truthy) `echoResponses` value, successful only when it
is a JSON array with a first element; on any other truthy value the
subsequent subscripting raises (`TypeError`/`KeyError`) and is caught. -/
def firstElem : Json → Option Json
  | .arr (x :: _) => some x
  | _ => none

/-- Reading `echo["time"]` as a number: the first echo must be a JSON object
with a numeric `time` field, else the expression raises and is caught. -/
def echoTime (e : Json) : Option ℚ :=
  match e with
  | .obj efields => (lookupField efields "time").bind toNum
  | _ => none

/-- Outcome of one `RadarWindow.process_message` call (`src/main.py` lines
127-140): `update angle rd` means `update_radar_data` was called with that
angle and `relative_distance = ((echoResponses[0]["time"] * 300_000) / 2) / 200`;
`noUpdate` means the `if json_object.get("echoResponses"):` guard was falsy
and nothing happened; `errorCaught` means an exception was raised, caught by
the `except` clause and printed. -/
inductive MsgOutcome where
  | errorCaught
  | noUpdate
  | update (angle : ℚ) (relative_distance : ℚ)
deriving Repr, DecidableEq

/-- The slot `RadarWindow.process_message` (`src/main.py` lines 127-140), up to the
real-valued trigonometry (split off below as `posX`/`posY` since the caught
exceptions are all raised before `math.cos` runs). -/
def process_message (json_object : Json) : MsgOutcome :=
  match json_object with
  | .obj fields =>
    -- Python: `json_object.get("echoResponses")` — `None` when absent.
    let echoes := (lookupField fields "echoResponses").getD .null
    if truthy echoes then
      match lookupField fields "scanAngle" with
      | none => .errorCaught        -- KeyError on json_object["scanAngle"]
      | some angleJ =>
        match toNum angleJ, (firstElem echoes).bind echoTime with
        | some angle, some t => .update angle (((t * 300000) / 2) / 200)
        | _, _ => .errorCaught      -- TypeError/KeyError/IndexError, caught
    else
      .noUpdate
  | _ => .errorCaught               -- non-dict payload: `.get` raises

/-- The code's `x = relative_distance * 150 * math.cos(math.radians(angle)) + 150`
(`src/main.py` line 133), with Python floats idealised as reals. -/
noncomputable def posX (angle rd : ℚ) : ℝ :=
  (rd : ℝ) * 150 * Real.cos ((angle : ℝ) * Real.pi / 180) + 150

/-- The code's `y = relative_distance * 150 * math.sin(math.radians(angle)) + 150`
(`src/main.py` line 134). -/
noncomputable def posY (angle rd : ℚ) : ℝ :=
  (rd : ℝ) * 150 * Real.sin ((angle : ℝ) * Real.pi / 180) + 150

/-- Python `int()` truncation toward zero, applied to the real idealisation
of the computed float (`QPoint(int(x), int(y))`, line 137). -/
noncomputable def pyInt (x : ℝ) : ℤ :=
  if 0 ≤ x then ⌊x⌋ else ⌈x⌉

/-- The `update_radar_data(angle, QPoint(int(x), int(y)))` call a message
produces, if any: `none` when the guard was falsy or an exception was
caught. -/
noncomputable def emittedUpdate (json_object : Json) : Option (ℚ × ℤ × ℤ) :=
  match process_message json_object with
  | .update a rd => some (a, pyInt (posX a rd), pyInt (posY a rd))
  | _ => none

/-- State of `RadarWidget` (`src/main.py` lines 58-99): beam angle, dot
position and dot visibility (constructor defaults `0`, `(150, 150)`,
`False`). -/
structure RadarWidget where
  angle : ℚ
  dot_position : ℤ × ℤ
  dot_visible : Bool
deriving Repr, DecidableEq

/-- The widget as constructed by `RadarWidget.__init__`. -/
def RadarWidget.init : RadarWidget :=
  { angle := 0, dot_position := (150, 150), dot_visible := false }

/-- The method `RadarWidget.update_radar_data` (lines 95-99): store the angle and
position and set `dot_visible = True`.  Nothing in the program ever sets
`dot_visible` back to `False`. -/
def update_radar_data (w : RadarWidget) (angle : ℚ) (pos : ℤ × ℤ) : RadarWidget :=
  { w with angle := angle, dot_position := pos, dot_visible := true }

/-- An event delivered to `RadarWindow` on the GUI thread: a parsed message
(signal `message_received`) or a connectivity flag (signal
`connection_status`). -/
inductive GuiEvent where
  | message (json_object : Json)
  | connStatus (status : Bool)

/-- One GUI-thread dispatch in `RadarWindow`: `process_message` may call
`update_radar_data`; `handle_connection` only prints and leaves the widget
untouched. -/
noncomputable def radarWindowStep (w : RadarWidget) : GuiEvent → RadarWidget
  | .message j =>
    match emittedUpdate j with
    | some (a, p) => update_radar_data w a p
    | none => w
  | .connStatus _ => w

/-- A well-typed inbound message, after the `WebSocketResponse` TypedDict
(`src/main.py` lines 13-21). -/
structure EchoResponse where
  time : ℚ
  power : ℚ
deriving Repr, DecidableEq

structure WebSocketResponse where
  scanAngle : ℤ
  pulseDuration : ℤ
  echoResponses : List EchoResponse
deriving Repr, DecidableEq

/-- The JSON document carrying an echo. -/
def EchoResponse.toJson (e : EchoResponse) : Json :=
  .obj [("time", .num e.time), ("power", .num e.power)]

/-- The JSON document carrying a well-typed scan report, in the wire schema
`{"scanAngle": int, "pulseDuration": int, "echoResponses": [...]}`. -/
def WebSocketResponse.toJson (r : WebSocketResponse) : Json :=
  .obj [("scanAngle", .num (r.scanAngle : ℚ)),
        ("pulseDuration", .num (r.pulseDuration : ℚ)),
        ("echoResponses", .arr (r.echoResponses.map EchoResponse.toJson))]

/-! The worker loop (`WebSocketWorker.websocket_client`, lines 37-52) -/

/-- One `websocket.recv()` outcome inside an established session: a message
whose `json.loads` result is `parsed` (`none` = `json.JSONDecodeError`), a
`websockets.exceptions.ConnectionClosed`, or some other exception. -/
inductive RecvEvent where
  | msg (parsed : Option Json)
  | closed
  | err
deriving Repr

/-- Outcome of one `websockets.connect(...)` call: the attempt raised, or a
session was established whose successive `recv()` calls produce `events`. -/
inductive AttemptOutcome where
  | failConnect
  | session (events : List RecvEvent)
deriving Repr

/-- An action the worker performs, in order: emit `connection_status`, emit
`message_received`, print an error line, or `await asyncio.sleep(secs)`. -/
inductive OutAction where
  | connStatus (status : Bool)
  | messageSignal (json_object : Json)
  | printErr
  | sleep (secs : ℚ)
deriving Repr

/-- How the inner `while self.running:` receive loop ended: `stopped`
(`running` cleared by `stop()`, modelled as the event list running out),
`broke` (`ConnectionClosed` caught, `break` — the `async with` exits
normally), or `exc` (an exception other than `ConnectionClosed`, e.g. a
`json.loads` failure, escaped the inner `try`). -/
inductive SessionEnd where
  | stopped
  | broke
  | exc
deriving Repr, DecidableEq

/-- The inner receive loop (lines 42-48): emitted actions and how it ended. -/
def runSession : List RecvEvent → List OutAction × SessionEnd
  | [] => ([], .stopped)
  | .closed :: _ => ([], .broke)
  | .err :: _ => ([], .exc)
  | .msg none :: _ => ([], .exc)
  | .msg (some j) :: rest =>
    let (out, e) := runSession rest
    (.messageSignal j :: out, e)

/-- What follows an established session, by how its receive loop ended:
after `stopped` the outer loop also exits; after `broke` the outer loop
immediately retries; after `exc` the `except` clause prints, emits
`connection_status(False)`, sleeps 5 seconds, then retries. -/
def sessionTail : SessionEnd → List OutAction → List OutAction
  | .stopped, _ => []
  | .broke, k => k
  | .exc, k => .printErr :: .connStatus false :: .sleep 5 :: k

/-- The loop `WebSocketWorker.websocket_client` (lines 37-52) over a finite trace of
connection-attempt outcomes (the trace ending models `stop()`): the list of
actions it performs. -/
def websocket_client : List AttemptOutcome → List OutAction
  | [] => []
  | .failConnect :: rest =>
    .printErr :: .connStatus false :: .sleep 5 :: websocket_client rest
  | .session events :: rest =>
    .connStatus true ::
      ((runSession events).1 ++ sessionTail (runSession events).2 (websocket_client rest))

/-! The spec's geometry formula, for refinement comparison -/

/-- Following the spec's words (§4.2): `r = (time * 300000 / 2) / maxRangeUnits`,
`angleRadians = scanAngleDegrees * π / 180`,
`x = r * surfaceRadius * cos(angleRadians) + surfaceRadius`,
`y = r * surfaceRadius * sin(angleRadians) + surfaceRadius`.  Stated
independently of the code's `posX`/`posY` so the two can be compared. -/
noncomputable def spec_position (scanAngleDegrees firstEchoTime : ℚ)
    (surfaceRadius maxRangeUnits : ℝ) : ℝ × ℝ :=
  let r : ℝ := ((firstEchoTime : ℝ) * 300000 / 2) / maxRangeUnits
  let angleRadians : ℝ := (scanAngleDegrees : ℝ) * Real.pi / 180
  (r * surfaceRadius * Real.cos angleRadians + surfaceRadius,
   r * surfaceRadius * Real.sin angleRadians + surfaceRadius)

/-! Concrete messages from the spec's scenarios -/

/-- Scenario A: `{scanAngle:0, pulseDuration:10, echoResponses:[{time:0.001, power:0.5}]}`. -/
def reportA : WebSocketResponse := ⟨0, 10, [⟨1/1000, 1/2⟩]⟩

/-- Scenario B: `{scanAngle:90, pulseDuration:5, echoResponses:[]}`. -/
def reportB : WebSocketResponse := ⟨90, 5, []⟩

/-- Boundary probe: `{scanAngle:360, pulseDuration:5, echoResponses:[{time:0.001, power:0.5}]}`. -/
def report360 : WebSocketResponse := ⟨360, 5, [⟨1/1000, 1/2⟩]⟩

/-- A far echo: `time = 0.002` s gives one-way distance 300 and range
fraction 1.5 > 1. -/
def reportFar : WebSocketResponse := ⟨0, 10, [⟨1/500, 1/2⟩]⟩

/-! Evaluation lemmas for the message pipeline -/

/-- A well-typed report with no echoes hits the falsy
`if json_object.get("echoResponses"):` guard: nothing happens. -/
theorem process_message_toJson_nil (r : WebSocketResponse)
    (h : r.echoResponses = []) : process_message r.toJson = .noUpdate := by
  rcases r with ⟨a, p, es⟩
  simp only at h
  subst h
  rfl

/-- A well-typed report with first echo `e` yields an update with its own
`scanAngle` and `relative_distance = ((e.time * 300000) / 2) / 200`. -/
theorem process_message_toJson_cons (r : WebSocketResponse) (e : EchoResponse)
    (tl : List EchoResponse) (h : r.echoResponses = e :: tl) :
    process_message r.toJson =
      .update (r.scanAngle : ℚ) (((e.time * 300000) / 2) / 200) := by
  rcases r with ⟨a, p, es⟩
  simp only at h
  subst h
  rfl

/-- Evaluating `emittedUpdate` on a report with no echoes: no widget update. -/
theorem emittedUpdate_toJson_nil (r : WebSocketResponse)
    (h : r.echoResponses = []) : emittedUpdate r.toJson = none := by
  unfold emittedUpdate
  rw [process_message_toJson_nil r h]

/-- Evaluating `emittedUpdate` on a report with a first echo: one widget update with the
report's angle and truncated coordinates. -/
theorem emittedUpdate_toJson_cons (r : WebSocketResponse) (e : EchoResponse)
    (tl : List EchoResponse) (h : r.echoResponses = e :: tl) :
    emittedUpdate r.toJson =
      some ((r.scanAngle : ℚ),
        pyInt (posX (r.scanAngle : ℚ) (((e.time * 300000) / 2) / 200)),
        pyInt (posY (r.scanAngle : ℚ) (((e.time * 300000) / 2) / 200))) := by
  unfold emittedUpdate
  rw [process_message_toJson_cons r e tl h]

/-! Claim C1 -/

/-- C1 counterexample: an established session is lost (`ConnectionClosed`
during `recv`), and the worker immediately starts the next connect attempt:
the action trace contains no `connection_status(False)` emission and no sleep
between the two attempts, contradicting the claim that session loss is
handled like establishment failure (emit `Disconnected`, wait 5 s). -/
theorem C1_counterexample :
    websocket_client [.session [.closed], .session []] =
      [.connStatus true, .connStatus true] ∧
    OutAction.connStatus false ∉ websocket_client [.session [.closed], .session []] ∧
    OutAction.sleep 5 ∉ websocket_client [.session [.closed], .session []] := by
  refine ⟨rfl, ?_, ?_⟩ <;> simp [websocket_client, runSession, sessionTail]

/-- C1 (amended): a failed establishment attempt, and any in-session
exception other than `ConnectionClosed` (e.g. a `json.loads` failure), prints
an error, emits `connection_status(False)` and sleeps the fixed 5 seconds
before the loop retries — and the loop keeps retrying over the whole
remaining trace, i.e. indefinitely until stopped.  A loss of an established
session (`ConnectionClosed`) instead retries immediately: no `Disconnected`
emission and no delay. -/
theorem C1_reconnect_policy (rest : List AttemptOutcome) :
    websocket_client (.failConnect :: rest) =
      .printErr :: .connStatus false :: .sleep 5 :: websocket_client rest ∧
    (∀ events, (runSession events).2 = .exc →
      websocket_client (.session events :: rest) =
        .connStatus true :: ((runSession events).1 ++
          (.printErr :: .connStatus false :: .sleep 5 :: websocket_client rest))) ∧
    (∀ events, (runSession events).2 = .broke →
      websocket_client (.session events :: rest) =
        .connStatus true :: ((runSession events).1 ++ websocket_client rest)) := by
  refine ⟨rfl, ?_, ?_⟩ <;> intro events h <;> simp [websocket_client, h, sessionTail]

/-- C1 witness: the three branches at concrete traces. -/
theorem C1_reconnect_policy_witness :
    websocket_client [.failConnect] = [.printErr, .connStatus false, .sleep 5] ∧
    websocket_client [.session [.msg none]] =
      [.connStatus true, .printErr, .connStatus false, .sleep 5] ∧
    websocket_client [.session [.closed]] = [.connStatus true] := by
  obtain ⟨h1, h2, h3⟩ := C1_reconnect_policy []
  exact ⟨by rw [h1]; rfl, by rw [h2 [.msg none] rfl]; rfl, by rw [h3 [.closed] rfl]; rfl⟩

/-! Claim C2 -/

/-- C2 counterexample: a structurally invalid payload (a `json.loads`
failure) escapes the inner `try` (which only catches `ConnectionClosed`),
ending the session: the next, well-formed message is never delivered and the
worker takes the disconnect-and-delay path — so a single decode failure does
close the session, contrary to the claim. -/
theorem C2_counterexample :
    websocket_client [.session [.msg none, .msg (some (.num 1))]] =
      [.connStatus true, .printErr, .connStatus false, .sleep 5] ∧
    OutAction.messageSignal (.num 1) ∉
      websocket_client [.session [.msg none, .msg (some (.num 1))]] := by
  refine ⟨rfl, ?_⟩
  simp [websocket_client, runSession, sessionTail]

/-- C2 (amended): a message that parses never ends the receive loop,
whatever its content — field-level decode failures occur in
`process_message`, which catches every exception and reports it, e.g. a
truthy `echoResponses` with no `scanAngle` key — but a message whose
`json.loads` fails (structurally invalid) raises out of the receive loop and
closes the session. -/
theorem C2_decode_failure (j : Json) (rest : List RecvEvent)
    (fields : List (String × Json))
    (hech : truthy ((lookupField fields "echoResponses").getD .null) = true)
    (hang : lookupField fields "scanAngle" = none) :
    runSession (.msg (some j) :: rest) =
      (.messageSignal j :: (runSession rest).1, (runSession rest).2) ∧
    process_message (.obj fields) = .errorCaught ∧
    runSession (.msg none :: rest) = ([], .exc) := by
  refine ⟨rfl, ?_, rfl⟩
  simp [process_message, hech, hang]

/-- C2 witness: a parsed message is forwarded and the loop goes on; the
missing-`scanAngle` object is reported; the unparsable message ends the
session with an exception. -/
theorem C2_decode_failure_witness :
    runSession [.msg (some (.num 2))] = ([.messageSignal (.num 2)], .stopped) ∧
    process_message (.obj [("echoResponses", .arr [.num 1])]) = .errorCaught ∧
    runSession [.msg none] = ([], .exc) := by
  obtain ⟨h1, h2, h3⟩ :=
    C2_decode_failure (.num 2) [] [("echoResponses", .arr [.num 1])] rfl rfl
  exact ⟨by rw [h1]; rfl, h2, h3⟩

/-! Claim C3 -/

/-- C3 counterexample: the code never range-checks `scanAngle`: the message
`{scanAngle:360, pulseDuration:5, echoResponses:[{time:0.001, power:0.5}]}`
decodes and is processed successfully (an update with angle 360 is emitted),
while the claim says decoding with scanAngle 360 fails. -/
theorem C3_counterexample :
    process_message report360.toJson = .update 360 (3/4) := by
  rw [process_message_toJson_cons report360 ⟨1/1000, 1/2⟩ [] rfl]
  norm_num [report360]

/-- C3 (amended): there is no range validation at all: every well-typed
report, whatever its `scanAngle` (0 and 359, but also 360 and anything
outside [0,360)), decodes to an update carrying that angle.  An absent
`scanAngle` under a truthy `echoResponses` raises and is caught (reported,
no update), while an absent `echoResponses` key is silently skipped rather
than reported; `pulseDuration` is never examined (the quantified report
carries an arbitrary one). -/
theorem C3_no_range_check (r : WebSocketResponse) (e : EchoResponse)
    (tl : List EchoResponse) (h : r.echoResponses = e :: tl)
    (fields : List (String × Json))
    (hech : truthy ((lookupField fields "echoResponses").getD .null) = true)
    (hang : lookupField fields "scanAngle" = none) :
    process_message r.toJson =
      .update (r.scanAngle : ℚ) (((e.time * 300000) / 2) / 200) ∧
    process_message (.obj fields) = .errorCaught ∧
    (∀ gs, lookupField gs "echoResponses" = none →
      process_message (.obj gs) = .noUpdate) := by
  refine ⟨process_message_toJson_cons r e tl h, ?_, ?_⟩
  · simp [process_message, hech, hang]
  · intro gs hg
    simp [process_message, hg, truthy]

/-- C3 witness: scanAngle 360 accepted; missing `scanAngle` reported; missing
`echoResponses` silently skipped. -/
theorem C3_no_range_check_witness :
    process_message report360.toJson = .update 360 (3/4) ∧
    process_message (.obj [("echoResponses", .num 7)]) = .errorCaught ∧
    process_message (.obj [("scanAngle", .num 0)]) = .noUpdate := by
  obtain ⟨h1, h2, h3⟩ := C3_no_range_check report360 ⟨1/1000, 1/2⟩ [] rfl
    [("echoResponses", .num 7)] rfl rfl
  refine ⟨?_, h2, h3 [("scanAngle", .num 0)] rfl⟩
  rw [h1]
  norm_num [report360]

/-! Claim C4 -/

/-- C4 counterexample: scenario B's message (angle 90, empty echo list)
produces no display event at all — the guard
`if json_object.get("echoResponses"):` is falsy, `update_radar_data` is never
called, and the widget still shows angle 0 — while the claim says an event
with angle 90 is still delivered. -/
theorem C4_counterexample :
    process_message reportB.toJson = .noUpdate ∧
    emittedUpdate reportB.toJson = none ∧
    radarWindowStep RadarWidget.init (.message reportB.toJson) = RadarWidget.init ∧
    RadarWidget.init.angle ≠ 90 := by
  have h2 := emittedUpdate_toJson_nil reportB rfl
  refine ⟨process_message_toJson_nil reportB rfl, h2, ?_, by norm_num [RadarWidget.init]⟩
  simp [radarWindowStep, h2]

/-- C4 (amended): a display event is delivered exactly for the messages that
decode with a non-empty echo sequence — one `update_radar_data` call carrying
the scan angle per such message (`radarWindowStep` dispatches at most one
update by construction, mirroring the single call site) — while a message
with an empty echo sequence delivers nothing and leaves the widget, beam
angle included, untouched. -/
theorem C4_event_per_message (r : WebSocketResponse) (w : RadarWidget)
    (e : EchoResponse) (tl : List EchoResponse) :
    (r.echoResponses = e :: tl →
      (radarWindowStep w (.message r.toJson)).angle = (r.scanAngle : ℚ)) ∧
    (r.echoResponses = [] →
      radarWindowStep w (.message r.toJson) = w) := by
  constructor
  · intro h
    simp [radarWindowStep, emittedUpdate_toJson_cons r e tl h, update_radar_data]
  · intro h
    simp [radarWindowStep, emittedUpdate_toJson_nil r h]

/-- C4 witness: scenario A's message moves the beam to its angle; scenario
B's message leaves the widget unchanged. -/
theorem C4_event_per_message_witness :
    (radarWindowStep RadarWidget.init (.message reportA.toJson)).angle = 0 ∧
    radarWindowStep RadarWidget.init (.message reportB.toJson) = RadarWidget.init := by
  obtain ⟨h1, _⟩ := C4_event_per_message reportA RadarWidget.init ⟨1/1000, 1/2⟩ []
  obtain ⟨_, h4⟩ := C4_event_per_message reportB RadarWidget.init ⟨1/1000, 1/2⟩ []
  exact ⟨by rw [h1 rfl]; norm_num [reportA], h4 rfl⟩

/-! Claim C5 -/

/-- C5: for every message whose echo sequence is non-empty, the code's
computed position coincides with the spec's formula at `surfaceRadius = 150`
and `maxRangeUnits = 200`, with `r` derived from the first echo's time; and
scenario A's inputs (angle 0, time 0.001) give exactly (262.5, 150). -/
theorem C5_geometry (r : WebSocketResponse) (e : EchoResponse)
    (tl : List EchoResponse) (h : r.echoResponses = e :: tl) :
    (∃ rd : ℚ, process_message r.toJson = .update (r.scanAngle : ℚ) rd ∧
      (posX (r.scanAngle : ℚ) rd, posY (r.scanAngle : ℚ) rd) =
        spec_position (r.scanAngle : ℚ) e.time 150 200) ∧
    spec_position 0 (1/1000) 150 200 = (525/2, 150) := by
  constructor
  · refine ⟨((e.time * 300000) / 2) / 200, process_message_toJson_cons r e tl h, ?_⟩
    simp only [posX, posY, spec_position, Prod.mk.injEq]
    constructor <;> push_cast <;> ring
  · simp only [spec_position, Prod.mk.injEq]
    norm_num

/-- C5 witness: scenario A through the pipeline. -/
theorem C5_geometry_witness :
    (∃ rd : ℚ, process_message reportA.toJson = .update (reportA.scanAngle : ℚ) rd ∧
      (posX (reportA.scanAngle : ℚ) rd, posY (reportA.scanAngle : ℚ) rd) =
        spec_position (reportA.scanAngle : ℚ) (1/1000) 150 200) ∧
    spec_position 0 (1/1000) 150 200 = (525/2, 150) :=
  C5_geometry reportA ⟨1/1000, 1/2⟩ [] rfl

/-! Claim C6 -/

/-- C6: a well-typed report produces a Position exactly when its echo
sequence is non-empty: with a first echo one update (carrying the truncated
coordinates of the computed position) goes to the widget, with an empty
sequence none does. -/
theorem C6_position_iff_echoes (r : WebSocketResponse) :
    (r.echoResponses = [] → emittedUpdate r.toJson = none) ∧
    (∀ e tl, r.echoResponses = e :: tl →
      emittedUpdate r.toJson =
        some ((r.scanAngle : ℚ),
          pyInt (posX (r.scanAngle : ℚ) (((e.time * 300000) / 2) / 200)),
          pyInt (posY (r.scanAngle : ℚ) (((e.time * 300000) / 2) / 200)))) :=
  ⟨fun h => emittedUpdate_toJson_nil r h,
   fun e tl h => emittedUpdate_toJson_cons r e tl h⟩

/-- C6 witness: scenario B yields no position, scenario A yields one. -/
theorem C6_position_iff_echoes_witness :
    emittedUpdate reportB.toJson = none ∧
    emittedUpdate reportA.toJson = some (0, 262, 150) := by
  refine ⟨(C6_position_iff_echoes reportB).1 rfl, ?_⟩
  rw [(C6_position_iff_echoes reportA).2 ⟨1/1000, 1/2⟩ [] rfl]
  have h1 : posX ((reportA.scanAngle : ℤ) : ℚ) ((1/1000 * 300000 / 2) / 200) = 525/2 := by
    simp [posX, reportA]
    norm_num
  have h2 : posY ((reportA.scanAngle : ℤ) : ℚ) ((1/1000 * 300000 / 2) / 200) = 150 := by
    simp [posY, reportA]
  rw [h1, h2]
  norm_num [pyInt, Int.floor_eq_iff, reportA]

/-! Claim C7 -/

/-- C7: the computation uses only the first echo: two reports with the same
angle and the same first echo produce the same outcome and the same widget
update, whatever the echoes after the first. -/
theorem C7_first_echo_only (r1 r2 : WebSocketResponse) (e : EchoResponse)
    (t1 t2 : List EchoResponse) (hang : r1.scanAngle = r2.scanAngle)
    (h1 : r1.echoResponses = e :: t1) (h2 : r2.echoResponses = e :: t2) :
    process_message r1.toJson = process_message r2.toJson ∧
    emittedUpdate r1.toJson = emittedUpdate r2.toJson := by
  rw [process_message_toJson_cons r1 e t1 h1, process_message_toJson_cons r2 e t2 h2,
    emittedUpdate_toJson_cons r1 e t1 h1, emittedUpdate_toJson_cons r2 e t2 h2, hang]
  exact ⟨rfl, rfl⟩

/-- C7 witness: adding a second echo changes nothing. -/
theorem C7_first_echo_only_witness :
    process_message (WebSocketResponse.toJson ⟨0, 10, [⟨1/1000, 1/2⟩]⟩) =
      process_message (WebSocketResponse.toJson ⟨0, 3, [⟨1/1000, 1/2⟩, ⟨1/100, 1⟩]⟩) ∧
    emittedUpdate (WebSocketResponse.toJson ⟨0, 10, [⟨1/1000, 1/2⟩]⟩) =
      emittedUpdate (WebSocketResponse.toJson ⟨0, 3, [⟨1/1000, 1/2⟩, ⟨1/100, 1⟩]⟩) :=
  C7_first_echo_only ⟨0, 10, [⟨1/1000, 1/2⟩]⟩ ⟨0, 3, [⟨1/1000, 1/2⟩, ⟨1/100, 1⟩]⟩
    ⟨1/1000, 1/2⟩ [] [⟨1/100, 1⟩] rfl rfl rfl

/-! Claim C8 -/

/-- C8: an out-of-range echo (range fraction above 1) is not clamped: the
update carries the raw relative distance, and the computed point lies
strictly outside the visible display circle of radius 150 around
(150, 150). -/
theorem C8_unclamped (r : WebSocketResponse) (e : EchoResponse)
    (tl : List EchoResponse) (h : r.echoResponses = e :: tl)
    (hfar : 1 < ((e.time * 300000) / 2) / 200) :
    process_message r.toJson =
      .update (r.scanAngle : ℚ) (((e.time * 300000) / 2) / 200) ∧
    (150:ℝ)^2 <
      (posX (r.scanAngle : ℚ) (((e.time * 300000) / 2) / 200) - 150)^2 +
      (posY (r.scanAngle : ℚ) (((e.time * 300000) / 2) / 200) - 150)^2 := by
  refine ⟨process_message_toJson_cons r e tl h, ?_⟩
  set rd : ℚ := ((e.time * 300000) / 2) / 200 with hrd
  have hr : (1:ℝ) < (rd:ℝ) := by exact_mod_cast hfar
  have key := Real.sin_sq_add_cos_sq (((r.scanAngle : ℚ) : ℝ) * Real.pi / 180)
  have hsq :
      (posX (r.scanAngle : ℚ) rd - 150)^2 + (posY (r.scanAngle : ℚ) rd - 150)^2 =
        ((rd:ℝ) * 150)^2 := by
    simp only [posX, posY]
    linear_combination ((rd:ℝ) * 150)^2 * key
  rw [hsq]
  nlinarith [hr]

/-- C8 witness: echo time 0.002 s gives range fraction 1.5; the point lands
outside the circle. -/
theorem C8_unclamped_witness :
    1 < (((1:ℚ)/500 * 300000) / 2) / 200 ∧
    process_message reportFar.toJson =
      .update (reportFar.scanAngle : ℚ) ((((1:ℚ)/500 * 300000) / 2) / 200) ∧
    (150:ℝ)^2 <
      (posX (reportFar.scanAngle : ℚ) ((((1:ℚ)/500 * 300000) / 2) / 200) - 150)^2 +
      (posY (reportFar.scanAngle : ℚ) ((((1:ℚ)/500 * 300000) / 2) / 200) - 150)^2 := by
  have h := C8_unclamped reportFar ⟨1/500, 1/2⟩ [] rfl (by norm_num)
  exact ⟨by norm_num, h.1, h.2⟩

/-! Claim C9 -/

/-- Python `int()` truncation differs from its argument by less than one. -/
theorem abs_sub_pyInt_lt_one (x : ℝ) : |x - (pyInt x : ℝ)| < 1 := by
  simp only [pyInt]
  split
  · rw [abs_sub_lt_iff]
    refine ⟨?_, ?_⟩
    · have := Int.lt_floor_add_one x
      linarith
    · have := Int.floor_le x
      linarith
  · rw [abs_sub_lt_iff]
    refine ⟨?_, ?_⟩
    · have := Int.le_ceil x
      linarith
    · have := Int.ceil_lt_add_one x
      linarith

/-- C9: whenever a message hands a position to the widget, its coordinates
are the `int()` truncations of the computed real coordinates, each within
one display unit of the exact geometric value. -/
theorem C9_truncation (j : Json) (a : ℚ) (x y : ℤ)
    (h : emittedUpdate j = some (a, x, y)) :
    ∃ rd : ℚ, process_message j = .update a rd ∧
      x = pyInt (posX a rd) ∧ y = pyInt (posY a rd) ∧
      |posX a rd - (x:ℝ)| < 1 ∧ |posY a rd - (y:ℝ)| < 1 := by
  unfold emittedUpdate at h
  cases hp : process_message j with
  | errorCaught => rw [hp] at h; exact absurd h (by simp)
  | noUpdate => rw [hp] at h; exact absurd h (by simp)
  | update a0 rd =>
    rw [hp] at h
    simp only [Option.some.injEq, Prod.mk.injEq] at h
    obtain ⟨ha, hx, hy⟩ := h
    subst ha
    refine ⟨rd, rfl, hx.symm, hy.symm, ?_, ?_⟩
    · rw [← hx]
      exact abs_sub_pyInt_lt_one (posX a0 rd)
    · rw [← hy]
      exact abs_sub_pyInt_lt_one (posY a0 rd)

/-- C9 witness: scenario A's message hands (262, 150) to the widget,
truncated from (262.5, 150). -/
theorem C9_truncation_witness :
    emittedUpdate reportA.toJson = some (0, 262, 150) ∧
    ∃ rd : ℚ, process_message reportA.toJson = .update 0 rd ∧
      (262:ℤ) = pyInt (posX 0 rd) ∧ (150:ℤ) = pyInt (posY 0 rd) ∧
      |posX 0 rd - ((262:ℤ):ℝ)| < 1 ∧ |posY 0 rd - ((150:ℤ):ℝ)| < 1 := by
  have hemit : emittedUpdate reportA.toJson = some (0, 262, 150) := by
    rw [emittedUpdate_toJson_cons reportA ⟨1/1000, 1/2⟩ [] rfl]
    have h1 : posX ((reportA.scanAngle : ℤ) : ℚ) ((1/1000 * 300000 / 2) / 200) = 525/2 := by
      simp [posX, reportA]
      norm_num
    have h2 : posY ((reportA.scanAngle : ℤ) : ℚ) ((1/1000 * 300000 / 2) / 200) = 150 := by
      simp [posY, reportA]
    rw [h1, h2]
    norm_num [pyInt, Int.floor_eq_iff, reportA]
  exact ⟨hemit, C9_truncation reportA.toJson 0 262 150 hemit⟩

/-! Claim C10 -/

/-- One GUI dispatch never clears `dot_visible`. -/
theorem radarWindowStep_dot_visible (w : RadarWidget) (ev : GuiEvent)
    (hw : w.dot_visible = true) : (radarWindowStep w ev).dot_visible = true := by
  cases ev with
  | connStatus s => exact hw
  | message j =>
    simp only [radarWindowStep]
    cases hm : emittedUpdate j with
    | none => exact hw
    | some p =>
      obtain ⟨a, pos⟩ := p
      simp [update_radar_data]

/-- Any run of GUI dispatches keeps a visible dot visible. -/
theorem foldl_radarWindowStep_dot_visible (events : List GuiEvent)
    (w : RadarWidget) (hw : w.dot_visible = true) :
    (events.foldl radarWindowStep w).dot_visible = true := by
  induction events generalizing w with
  | nil => exact hw
  | cons ev evs ih =>
    rw [List.foldl_cons]
    exact ih (radarWindowStep w ev) (radarWindowStep_dot_visible w ev hw)

/-- C10: processing a report with a non-empty echo sequence sets the dot
visible from any widget state — in particular from the initial invisible
one — and it stays visible after every sequence of later dispatches (further
messages of any content, decode failures, connectivity changes): the last
target dot stays displayed forever. -/
theorem C10_dot_stays_visible (w : RadarWidget) (r : WebSocketResponse)
    (e : EchoResponse) (tl : List EchoResponse) (h : r.echoResponses = e :: tl)
    (events : List GuiEvent) :
    (radarWindowStep w (.message r.toJson)).dot_visible = true ∧
    (events.foldl radarWindowStep
      (radarWindowStep w (.message r.toJson))).dot_visible = true := by
  have hset : (radarWindowStep w (.message r.toJson)).dot_visible = true := by
    simp [radarWindowStep, emittedUpdate_toJson_cons r e tl h, update_radar_data]
  exact ⟨hset, foldl_radarWindowStep_dot_visible events _ hset⟩

/-- C10 witness: starting from the initial widget (whose `dot_visible` is
`false`), scenario A's report turns the dot on, and it survives a disconnect
notification followed by an empty-echo message. -/
theorem C10_dot_stays_visible_witness :
    (radarWindowStep RadarWidget.init (.message reportA.toJson)).dot_visible = true ∧
    (([GuiEvent.connStatus false, .message reportB.toJson].foldl radarWindowStep
        (radarWindowStep RadarWidget.init (.message reportA.toJson)))).dot_visible = true :=
  C10_dot_stays_visible RadarWidget.init reportA ⟨1/1000, 1/2⟩ [] rfl
    [.connStatus false, .message reportB.toJson]
